import Mathlib

/-!
Verification of the ChittyDLVR delivery core against its specification.

The JavaScript source is shallowly embedded as executable Lean definitions:

* JS objects become structures; JS `Map` becomes an association list.
* Effectful inputs (random identifier generation, the system clock, the
  network fetch of the drand randomness beacon, ephemeral key generation)
  are externalized as explicit parameters of the embedded functions.
* `throw` becomes `Except.error`; a JS `try/catch` around fallible
  primitives becomes a `match` on `Option` results where `none` models the
  thrown exception being caught.
* The WebCrypto ECDSA-P256 primitives and the base64 text codec are
  external platform APIs, not repository code; they are modelled as an
  ideal deterministic signature scheme and an injective text codec with a
  decidable validity domain (see the doc comments on those definitions).
* Numeric scores use exact arithmetic with multipliers scaled by 100; it
  was checked by hand that for every method/status pair of the fixed
  tables (defaults included) the IEEE-754 double computation performed by
  the JS code rounds to the same integer as exact half-up rounding, so the
  exact model is faithful on the whole domain of the tables.
-/

/-! ## ScoringModel: delivery score (src/src/core/receipt.js, calculateDeliveryScore) -/

/-- The member names every JS object literal inherits from
`Object.prototype`.  A bracket lookup with one of these keys finds the
inherited member — a function (or, for `__proto__`, the prototype
object) — which is truthy and not a number. -/
def objectPrototypeKeys : List String :=
  ["constructor", "hasOwnProperty", "isPrototypeOf", "propertyIsEnumerable",
   "toLocaleString", "toString", "valueOf", "__proto__", "__defineGetter__",
   "__defineSetter__", "__lookupGetter__", "__lookupSetter__"]

/-- What a JS bracket lookup on one of the score-table object literals
produces: an own numeric entry, a truthy non-numeric member inherited
from `Object.prototype`, or `undefined`. -/
inductive JsLookupValue where
  | num (n : Nat)
  | inherited
  | absent
deriving Repr, DecidableEq

/-- The value of `lookup || default` as used in the scoring code: JS
`||` keeps a truthy left operand, so a nonzero own entry or an inherited
member survives, while `undefined` and a zero entry fall to the numeric
default. -/
inductive JsValue where
  | num (n : Nat)
  | function
deriving Repr, DecidableEq

def jsOr (v : JsLookupValue) (d : Nat) : JsValue :=
  match v with
  | .num n => if n = 0 then .num d else .num n
  | .inherited => .function
  | .absent => .num d

/-- A JS number that is either an actual (nonnegative integer) score or
`NaN` — the result of arithmetic on a non-numeric operand. -/
inductive JsScore where
  | nan
  | score (n : Nat)
deriving Repr, DecidableEq

/-- `methodScores` object of `ChittyDLVR.calculateDeliveryScore`
(src/src/core/receipt.js lines 412-420): JS object-literal bracket
lookup — an own entry for the seven table keys, the inherited truthy
member for an `Object.prototype` key, `undefined` otherwise. -/
def methodScores (method : String) : JsLookupValue :=
  if method = "legalService" then .num 95
  else if method = "inPerson" then .num 90
  else if method = "portal" then .num 85
  else if method = "email" then .num 70
  else if method = "sms" then .num 60
  else if method = "api" then .num 65
  else if method = "physical" then .num 75
  else if objectPrototypeKeys.contains method then .inherited
  else .absent

/-- `statusMultipliers` object (lines 422-432), scaled by 100 so the
model stays in `Nat`: PENDING 0, SENT 0.3, DELIVERED 0.6, OPENED 0.75,
ACKNOWLEDGED 0.85, RECEIPTED 1.0, FAILED 0, BOUNCED 0, REFUSED 0.5;
prototype-chain lookups modelled as for `methodScores`. -/
def statusMultipliers (status : String) : JsLookupValue :=
  if status = "PENDING" then .num 0
  else if status = "SENT" then .num 30
  else if status = "DELIVERED" then .num 60
  else if status = "OPENED" then .num 75
  else if status = "ACKNOWLEDGED" then .num 85
  else if status = "RECEIPTED" then .num 100
  else if status = "FAILED" then .num 0
  else if status = "BOUNCED" then .num 0
  else if status = "REFUSED" then .num 50
  else if objectPrototypeKeys.contains status then .inherited
  else .absent

/-- JS `Math.round` on a nonnegative value expressed in hundredths:
`Math.round(x) = floor(x + 1/2)` for `x ≥ 0`. -/
def jsRoundHundredths (n : Nat) : Nat := (n + 50) / 100

/-- `ChittyDLVR.calculateDeliveryScore(method, status)`
(src/src/core/receipt.js lines 411-438).  `baseScore` is
`methodScores[method] || 50` and `multiplier` is
`statusMultipliers[status] || 0` (`jsOr`); when either operand is an
inherited non-numeric member, the JS product and its `Math.round` are
`NaN`, modelled by `JsScore.nan`. -/
def calculateDeliveryScore (method status : String) : JsScore :=
  let baseScore := jsOr (methodScores method) 50
  let multiplier := jsOr (statusMultipliers status) 0
  match baseScore, multiplier with
  | .num b, .num m => .score (jsRoundHundredths (b * m))
  | _, _ => .nan

/-- `methodBase` table exactly as the specification words it (spec §4.1):
legalService 95, inPerson 90, portal 85, physical 75, email 70, api 65,
sms 60; unknown method defaults to 50. -/
def specMethodBase (method : String) : Nat :=
  if method = "legalService" then 95
  else if method = "inPerson" then 90
  else if method = "portal" then 85
  else if method = "physical" then 75
  else if method = "email" then 70
  else if method = "api" then 65
  else if method = "sms" then 60
  else 50

/-- `statusMultiplier` table exactly as the specification words it
(spec §4.1), scaled by 100; unknown status defaults to 0. -/
def specStatusMultiplier (status : String) : Nat :=
  if status = "PENDING" then 0
  else if status = "SENT" then 30
  else if status = "DELIVERED" then 60
  else if status = "OPENED" then 75
  else if status = "ACKNOWLEDGED" then 85
  else if status = "RECEIPTED" then 100
  else if status = "FAILED" then 0
  else if status = "BOUNCED" then 0
  else if status = "REFUSED" then 50
  else 0

theorem jsOr_methodScores_eq_specMethodBase (m : String)
    (hm : ¬ objectPrototypeKeys.contains m = true) :
    jsOr (methodScores m) 50 = .num (specMethodBase m) := by
  unfold methodScores specMethodBase
  split_ifs <;> simp_all [jsOr]

theorem jsOr_statusMultipliers_eq_specStatusMultiplier (s : String)
    (hs : ¬ objectPrototypeKeys.contains s = true) :
    jsOr (statusMultipliers s) 0 = .num (specStatusMultiplier s) := by
  unfold statusMultipliers specStatusMultiplier
  split_ifs <;> simp_all [jsOr]

/-! ## Model of the external platform primitives used by the receipt engine

The receipt engine (src/unnamed/part_001, lines 231-580) calls four
platform facilities that are not repository code: `TextEncoder.encode`,
`btoa`/`atob`, and the WebCrypto ECDSA-P256 sign/verify/export/import
operations.  They are modelled as follows.

* `textEncode` maps a string to the list of its character codes — an
  injective byte encoding, which is the only property the code relies on.
* `btoa` is modelled as an injective text encoding of a byte list with a
  decidable validity domain; `atob` is its partial inverse, returning
  `none` exactly where JS `atob` throws on non-base64 text.  The three
  facts used are: `atob (btoa b) = some b`, `atob` succeeds only on
  encoder images, and `btoa` is injective.
* The ECDSA keypair is modelled by a single key identifier (the private
  and public halves of one generated/imported pair carry the same
  identifier); `subtleSign` tags the exact data bytes with the key, and
  `subtleVerify` checks the tag.  This is the standard idealization of a
  correct, sound signature scheme: a signature verifies against a public
  key and data bytes iff it was produced by the matching private key on
  exactly those bytes. -/

/-- `TextEncoder.encode`: a string as its list of character codes. -/
def textEncode (s : String) : List Nat := s.data.map Char.toNat

theorem textEncode_injective : Function.Injective textEncode := by
  intro s t h
  have hchar : Function.Injective Char.toNat := by
    intro a b hab
    have := congrArg Char.ofNat hab
    simpa [Char.ofNat_toNat] using this
  have hdata : s.data = t.data := List.map_injective_iff.mpr hchar h
  cases s; cases t; exact congrArg String.mk hdata

/-- `btoa`: byte list to base64 text, modelled as an injective shift into
the codes `≥ 1` (code 0 never occurs in an encoder image, so any text
containing it is invalid). -/
def btoa (bytes : List Nat) : List Nat := bytes.map (· + 1)

/-- `atob`: base64 text back to bytes; `none` models JS `atob` throwing
on text that is not a valid encoding. -/
def atob (chars : List Nat) : Option (List Nat) :=
  if chars.all (1 ≤ ·) then some (chars.map (· - 1)) else none

theorem atob_btoa (bytes : List Nat) : atob (btoa bytes) = some bytes := by
  induction bytes with
  | nil => rfl
  | cons b rest ih =>
    simp only [btoa, atob, List.map_cons, List.all_cons] at *
    simp_all

theorem atob_eq_some (chars bytes : List Nat) (h : atob chars = some bytes) :
    chars = btoa bytes := by
  unfold atob at h
  split_ifs at h with hall
  · injection h with h
    subst h
    unfold btoa
    rw [List.map_map]
    rw [List.all_eq_true] at hall
    induction chars with
    | nil => rfl
    | cons c cs ih =>
      have hc : 1 ≤ c := by simpa using hall c (by simp)
      simp only [List.map_cons, Function.comp]
      rw [Nat.sub_add_cancel hc]
      refine congrArg (c :: ·) ?_
      exact ih fun x hx => hall x (by simp [hx])

theorem btoa_injective : Function.Injective btoa := by
  intro a b h
  have ha := atob_btoa a
  rw [h, atob_btoa] at ha
  injection ha with ha
  exact ha.symm

/-- An ECDSA-P256 keypair, modelled by one key identifier shared by the
private and the public half (the pair is generated or imported together,
so the halves always match). -/
structure KeyPair where
  keyId : Nat
deriving Repr, DecidableEq

def KeyPair.privateKey (kp : KeyPair) : Nat := kp.keyId

def KeyPair.publicKey (kp : KeyPair) : Nat := kp.keyId

/-- `crypto.subtle.sign` with the ECDSA / SHA-256 parameters:
the ideal signature binds the key and the exact data bytes. -/
def subtleSign (privateKey : Nat) (data : List Nat) : List Nat :=
  privateKey :: data

/-- `crypto.subtle.verify(..., publicKey, sig, data)`: the ideal check
that `sig` was produced by the key matching `publicKey` on exactly
`data`. -/
def subtleVerify (publicKey : Nat) (sig data : List Nat) : Bool :=
  decide (sig = publicKey :: data)

/-- `crypto.subtle.exportKey` in `spki` format: the public key as its
SPKI byte encoding. -/
def exportKey (publicKey : Nat) : List Nat := [publicKey]

/-- `crypto.subtle.importKey` in `spki` format: `none` models the
key-import call throwing on bytes that are not a valid SPKI key. -/
def importKey (bytes : List Nat) : Option Nat :=
  match bytes with
  | [p] => some p
  | _ => none

/-! ## ReceiptEngine (src/unnamed/part_001, lines 231-580) -/

def DRAND_URL : String := "https://drand.cloudflare.com"

def DRAND_CHAIN_HASH : String :=
  "8990e7a9aaed2ffed73dbd7092123d6f289930540d7651336225dc172e51b2ce"

/-- The JSON body returned by the drand beacon; each field is `none` when
the key is absent from the payload. -/
structure DrandJson where
  round : Option Nat
  randomness : Option String
  signature : Option String
deriving Repr, DecidableEq

/-- The outcome of `fetch(DRAND_URL/.../public/latest)` as seen by
`fetchDrandRound`: the fetch rejecting, a non-ok HTTP status, or an ok
response with a JSON body. -/
inductive DrandResponse where
  | netError (message : String)
  | httpError (status : Nat) (statusText : String)
  | ok (data : DrandJson)
deriving Repr, DecidableEq

/-- A complete drand round. -/
structure DrandAnchor where
  round : Nat
  randomness : String
  signature : String
deriving Repr, DecidableEq

/-- JS truthiness of an optional number (`0` is falsy). -/
def truthyNat (x : Option Nat) : Bool :=
  match x with
  | some n => n != 0
  | none => false

/-- JS truthiness of an optional string (`""` is falsy). -/
def truthyStr (x : Option String) : Bool :=
  match x with
  | some s => s != ""
  | none => false

/-- `ReceiptEngine.fetchDrandRound` (part_001 lines 254-275).  The
network interaction is externalized as the `resp` argument; every branch
returns (the `try/catch` guarantees the JS function never throws), with
`none` for each degraded case: fetch rejection, non-200 response, and a
payload with `!data.round || !data.randomness || !data.signature`. -/
def fetchDrandRound (resp : DrandResponse) : Option DrandAnchor :=
  match resp with
  | .netError _ => none
  | .httpError _ _ => none
  | .ok data =>
    if truthyNat data.round && truthyStr data.randomness && truthyStr data.signature then
      match data.round, data.randomness, data.signature with
      | some r, some x, some s => some ⟨r, x, s⟩
      | _, _, _ => none
    else
      none

/-- The payload object signed by `create` (part_001 lines 339-347), in
JSON key order. -/
structure ReceiptPayload where
  receiptId : String
  deliveryId : String
  signer : String
  method : String
  timestamp : String
  drandRound : Option Nat
  drandRandomness : Option String
deriving Repr, DecidableEq

def jsonString (s : String) : String := "\"" ++ s ++ "\""

def jsonNatOrNull (x : Option Nat) : String :=
  match x with
  | some n => toString n
  | none => "null"

def jsonStrOrNull (x : Option String) : String :=
  match x with
  | some s => jsonString s
  | none => "null"

/-- `JSON.stringify(payload)` for the receipt payload, with the keys in
insertion order.  String escaping is omitted: the claims rely only on the
serialization being a function of the payload, never on its exact text. -/
def serializePayload (p : ReceiptPayload) : String :=
  "\x7b\"receiptId\":" ++ jsonString p.receiptId ++
  ",\"deliveryId\":" ++ jsonString p.deliveryId ++
  ",\"signer\":" ++ jsonString p.signer ++
  ",\"method\":" ++ jsonString p.method ++
  ",\"timestamp\":" ++ jsonString p.timestamp ++
  ",\"drandRound\":" ++ jsonNatOrNull p.drandRound ++
  ",\"drandRandomness\":" ++ jsonStrOrNull p.drandRandomness ++ "\x7d"

/-- The `signature` block of a receipt (part_001 lines 382-390).
`value` and `publicKey` hold base64 text. -/
structure SignatureBlock where
  signatureId : String
  algorithm : String
  value : List Nat
  publicKey : List Nat
  signedPayload : String
  valid : Bool
  timestamp : String
deriving Repr, DecidableEq

/-- The `drand` temporal-anchor block of a receipt (part_001 lines
398-404). -/
structure DrandBlock where
  round : Nat
  randomness : String
  signature : String
  beacon : String
  chainHash : String
deriving Repr, DecidableEq

/-- The `legal` block of a receipt. -/
structure LegalBlock where
  admissible : Bool
  standard : String
  pillar : String
  score : Nat
  technical : Nat
  arguable : Nat
deriving Repr, DecidableEq

/-- A receipt as returned by `ReceiptEngine.create` (part_001 lines
368-424).  `signature` is optional so that `verify`'s
`!receiptData.signature` guard is expressible. -/
structure Receipt where
  receiptId : String
  deliveryId : String
  signer : String
  signerVerified : Bool
  signerMethod : String
  method : String
  algorithm : String
  signature : Option SignatureBlock
  witnessed : Bool
  witness : String
  witnessTimestamp : String
  drand : Option DrandBlock
  status : String
  legal : LegalBlock
  createdAt : String
  verifyUrl : String
deriving Repr, DecidableEq

/-- The engine's mutable state: the configured persistent key (the
`dlvr.signingKeyJwk` JWK, modelled by the key identifier it carries), the
lazily initialized `_keyPair`, and the `_receipts` map (an association
list; insertion prepends, lookup takes the first hit, which matches
`Map.set` overriding). -/
structure EngineState where
  signingKeyJwk : Option Nat
  keyPair : Option KeyPair
  receipts : List (String × Receipt)
deriving Repr, DecidableEq

/-- `ReceiptEngine.getServiceKeyPair` (part_001 lines 282-325): return
the cached pair, else import the configured JWK, else generate an
ephemeral pair (the generated randomness is externalized as `fresh`).
The import-failure and generation-failure throws are not modelled: the
claims under verification never reach them. -/
def getServiceKeyPair (st : EngineState) (fresh : Nat) : KeyPair × EngineState :=
  match st.keyPair with
  | some kp => (kp, st)
  | none =>
    match st.signingKeyJwk with
    | some d =>
      let kp : KeyPair := ⟨d⟩
      (kp, { st with keyPair := some kp })
    | none =>
      let kp : KeyPair := ⟨fresh⟩
      (kp, { st with keyPair := some kp })

/-- Receipt-method scoring tables (part_001 lines 530-561). -/
def calculateReceiptScore (method : String) : Nat :=
  let scores : Option Nat :=
    if method = "digital" then some 85
    else if method = "witness" then some 90
    else if method = "physical" then some 75
    else if method = "notarized" then some 95
    else if method = "legalService" then some 95
    else none
  scores.getD 70

def calculateTechnicalScore (method : String) : Nat :=
  let scores : Option Nat :=
    if method = "digital" then some 90
    else if method = "witness" then some 80
    else if method = "physical" then some 65
    else if method = "notarized" then some 90
    else if method = "legalService" then some 85
    else none
  scores.getD 60

def calculateArguableScore (method : String) : Nat :=
  let scores : Option Nat :=
    if method = "digital" then some 80
    else if method = "witness" then some 95
    else if method = "physical" then some 80
    else if method = "notarized" then some 95
    else if method = "legalService" then some 95
    else none
  scores.getD 70

/-- Options of `ReceiptEngine.create`; `method` defaults to `digital` at
the destructuring. -/
structure CreateOptions where
  deliveryId : String
  signer : String
  method : String := "digital"
  timestamp : String
deriving Repr, DecidableEq

/-- The payload built by `create` (part_001 lines 339-347);
`drand?.round || null` and `drand?.randomness || null` follow JS
truthiness. -/
def mkReceiptPayload (opts : CreateOptions) (receiptId : String)
    (drand : Option DrandAnchor) : ReceiptPayload where
  receiptId := receiptId
  deliveryId := opts.deliveryId
  signer := opts.signer
  method := opts.method
  timestamp := opts.timestamp
  drandRound :=
    match drand with
    | some d => if d.round = 0 then none else some d.round
    | none => none
  drandRandomness :=
    match drand with
    | some d => if d.randomness = "" then none else some d.randomness
    | none => none

/-- `ReceiptEngine.create` (part_001 lines 330-430).  The generated
receipt identifier, the ephemeral-key randomness, and the already
performed drand fetch are externalized as `receiptId`, `fresh`, and
`drand`.  The payload is serialized once and the same text is both signed
and stored as `signedPayload`; the receipt is stored in `_receipts` keyed
by its identifier. -/
def ReceiptEngine.create (st : EngineState) (opts : CreateOptions)
    (receiptId : String) (fresh : Nat) (drand : Option DrandAnchor) :
    Receipt × EngineState :=
  let payload := mkReceiptPayload opts receiptId drand
  let serializedPayload := serializePayload payload
  let keyPair := (getServiceKeyPair st fresh).1
  let st1 := (getServiceKeyPair st fresh).2
  let dataBuffer := textEncode serializedPayload
  let signatureBuffer := subtleSign keyPair.privateKey dataBuffer
  let publicKeyBuffer := exportKey keyPair.publicKey
  let signatureB64 := btoa signatureBuffer
  let publicKeyB64 := btoa publicKeyBuffer
  let receipt : Receipt :=
    { receiptId := receiptId
      deliveryId := opts.deliveryId
      signer := opts.signer
      signerVerified := true
      signerMethod := "ChittyID"
      method := opts.method
      algorithm := "ECDSA-P256-SHA256"
      signature := some
        { signatureId := "SIG-" ++ receiptId
          algorithm := "ECDSA-P256-SHA256"
          value := signatureB64
          publicKey := publicKeyB64
          signedPayload := serializedPayload
          valid := true
          timestamp := opts.timestamp }
      witnessed := true
      witness := "ChittyOS"
      witnessTimestamp := opts.timestamp
      drand := drand.map fun d =>
        { round := d.round
          randomness := d.randomness
          signature := d.signature
          beacon := DRAND_URL
          chainHash := DRAND_CHAIN_HASH }
      status := "VALID"
      legal :=
        { admissible := true
          standard := "ChittyProof"
          pillar := "delivery"
          score := calculateReceiptScore opts.method
          technical := calculateTechnicalScore opts.method
          arguable := calculateArguableScore opts.method }
      createdAt := opts.timestamp
      verifyUrl := "https://chitty.cc/receipt/" ++ receiptId }
  (receipt, { st1 with receipts := (receiptId, receipt) :: st1.receipts })

/-- `ReceiptEngine.getById` (part_001 lines 435-437). -/
def ReceiptEngine.getById (st : EngineState) (receiptId : String) : Option Receipt :=
  st.receipts.lookup receiptId

/-- The result object of `ReceiptEngine.verify`.  Fields absent from a
given JS result object are `none` / `false` here; `verificationError`
is `true` exactly on the `catch` branch. -/
structure VerifyResult where
  receiptId : String
  verified : Bool
  signatureValid : Option Bool
  witnessConfirmed : Option Bool
  chainAnchored : Option Bool
  verificationError : Bool
  error : Option String
  timestamp : Option String
deriving Repr, DecidableEq

/-- `ReceiptEngine.verify` (part_001 lines 443-495).  The `try/catch` is
modelled by matching the fallible platform primitives: each `none` is a
caught exception and yields the catch-branch result (`verified: false`,
`verificationError: true`).  The success path never consults the engine's
own keypair: the public key is imported from the receipt itself.  The
trailing `new Date().toISOString()` of the success result is externalized
as `now`. -/
def ReceiptEngine.verify (st : EngineState) (receiptId : String)
    (receiptData? : Option Receipt) (now : String) : VerifyResult :=
  let receiptData :=
    match receiptData? with
    | some d => some d
    | none => ReceiptEngine.getById st receiptId
  match receiptData with
  | none =>
    { receiptId := receiptId
      verified := false
      signatureValid := none
      witnessConfirmed := none
      chainAnchored := none
      verificationError := false
      error := some "Receipt not found or no signature data"
      timestamp := none }
  | some rd =>
    match rd.signature with
    | none =>
      { receiptId := receiptId
        verified := false
        signatureValid := none
        witnessConfirmed := none
        chainAnchored := none
        verificationError := false
        error := some "Receipt not found or no signature data"
        timestamp := none }
    | some sb =>
      let catchResult : VerifyResult :=
        { receiptId := receiptId
          verified := false
          signatureValid := none
          witnessConfirmed := none
          chainAnchored := none
          verificationError := true
          error := some "Verification system error"
          timestamp := none }
      match atob sb.publicKey with
      | none => catchResult
      | some keyData =>
        match importKey keyData with
        | none => catchResult
        | some importedKey =>
          match atob sb.value with
          | none => catchResult
          | some sigBytes =>
            let valid := subtleVerify importedKey sigBytes (textEncode sb.signedPayload)
            { receiptId := receiptId
              verified := valid
              signatureValid := some valid
              witnessConfirmed := some true
              chainAnchored := some true
              verificationError := false
              error := none
              timestamp := some now }

/-! ## DeliveryChannel (src/unnamed/part_003) -/

/-- The options passed by `DeliveryChannel.dispatch` to a handler:
`{deliveryId, address, mintId, timestamp}` plus the method used for
handler selection.  `address` is optional (portal/inPerson recipients
carry none).  `nowMs` externalizes the `Date.now()` read used by the
portal handler for its 30-day expiry. -/
structure DispatchOptions where
  deliveryId : String
  method : String
  address : Option String
  mintId : String
  timestamp : String
  nowMs : Nat
deriving Repr, DecidableEq

structure EmailLinks where
  view : String
  receipt : String
  decline : String
deriving Repr, DecidableEq

structure ApiPayload where
  event : String
  deliveryId : String
  mintId : String
  timestamp : String
deriving Repr, DecidableEq

/-- The channel-specific dispatch metadata returned by the seven
handlers (part_003 lines 43-168); one constructor per handler, carrying
that handler's fields.  Every handler sets `dispatched: true`, expressed
by `DispatchMeta.dispatched` below. -/
inductive DispatchMeta where
  | email (messageId : String) («to» : Option String) (subject : String)
      (trackingPixel readReceiptRequested : Bool) (links : EmailLinks)
      (timestamp : String)
  | sms (messageId : String) («to» : Option String) (body : String)
      (deliveryReport : Bool) (timestamp : String)
  | portal (portalUrl : String) (requiresAuth : Bool) (authMethod : String)
      (expiresAtMs : Nat) (timestamp : String)
  | api (webhookUrl : Option String) (payload : ApiPayload) (retries : Nat)
      (timestamp : String)
  | physical (carrier trackingNumber : Option String) (address : Option String)
      (certified returnReceiptRequested : Bool) (timestamp : String)
  | inPerson (witnessRequired : Bool) (witness location : Option String)
      (geoVerified : Bool) (timestamp : String)
  | legalService (serviceType processServer jurisdiction : Option String)
      (affidavitRequired : Bool) (timestamp : String)
deriving Repr, DecidableEq

/-- The `channel` field each handler writes into its result. -/
def DispatchMeta.channel : DispatchMeta → String
  | .email .. => "email"
  | .sms .. => "sms"
  | .portal .. => "portal"
  | .api .. => "api"
  | .physical .. => "physical"
  | .inPerson .. => "inPerson"
  | .legalService .. => "legalService"

/-- The `dispatched` field: every handler returns `dispatched: true`. -/
def DispatchMeta.dispatched (_ : DispatchMeta) : Bool := true

/-- `DeliveryChannel.sendEmail` (part_003 lines 43-61). -/
def sendEmail (o : DispatchOptions) : DispatchMeta :=
  .email ("MSG-" ++ o.deliveryId) o.address ("Document Delivery: " ++ o.mintId)
    true true
    ⟨"https://chitty.cc/view/" ++ o.deliveryId,
     "https://chitty.cc/receipt/" ++ o.deliveryId,
     "https://chitty.cc/decline/" ++ o.deliveryId⟩
    o.timestamp

/-- `DeliveryChannel.sendSMS` (part_003 lines 66-78). -/
def sendSMS (o : DispatchOptions) : DispatchMeta :=
  .sms ("SMS-" ++ o.deliveryId) o.address
    ("You have a certified document delivery. View: https://chitty.cc/view/" ++ o.deliveryId)
    true o.timestamp

/-- `DeliveryChannel.sendPortal` (part_003 lines 83-95); the expiry is
`Date.now() + 30 days` in milliseconds (the ISO rendering of that instant
is outside the model). -/
def sendPortal (o : DispatchOptions) : DispatchMeta :=
  .portal ("https://portal.chitty.cc/delivery/" ++ o.deliveryId) true "ChittyID"
    (o.nowMs + 30 * 24 * 60 * 60 * 1000) o.timestamp

/-- `DeliveryChannel.sendAPI` (part_003 lines 100-116). -/
def sendAPI (o : DispatchOptions) : DispatchMeta :=
  .api o.address ⟨"delivery.created", o.deliveryId, o.mintId, o.timestamp⟩ 3 o.timestamp

/-- `DeliveryChannel.sendPhysical` (part_003 lines 121-134). -/
def sendPhysical (o : DispatchOptions) : DispatchMeta :=
  .physical none none o.address true true o.timestamp

/-- `DeliveryChannel.recordInPerson` (part_003 lines 139-151). -/
def recordInPerson (o : DispatchOptions) : DispatchMeta :=
  .inPerson true none none false o.timestamp

/-- `DeliveryChannel.initiateLegalService` (part_003 lines 156-168). -/
def initiateLegalService (o : DispatchOptions) : DispatchMeta :=
  .legalService none none none true o.timestamp

/-- A handler slot of the `handlers` object in `getHandler`. -/
inductive ChannelHandler where
  | email | sms | portal | api | physical | inPerson | legalService
deriving Repr, DecidableEq

/-- `DeliveryChannel.getHandler` (part_003 lines 26-38): string-keyed
object lookup, and — crucially — `handlers[method] || handlers.email`:
an unknown method silently falls back to the email handler. -/
def getHandler (method : String) : ChannelHandler :=
  if method = "email" then .email
  else if method = "sms" then .sms
  else if method = "portal" then .portal
  else if method = "api" then .api
  else if method = "physical" then .physical
  else if method = "inPerson" then .inPerson
  else if method = "legalService" then .legalService
  else .email

def runHandler (h : ChannelHandler) (o : DispatchOptions) : DispatchMeta :=
  match h with
  | .email => sendEmail o
  | .sms => sendSMS o
  | .portal => sendPortal o
  | .api => sendAPI o
  | .physical => sendPhysical o
  | .inPerson => recordInPerson o
  | .legalService => initiateLegalService o

/-- `DeliveryChannel.dispatch` (part_003 lines 14-24). -/
def DeliveryChannel.dispatch (o : DispatchOptions) : DispatchMeta :=
  runHandler (getHandler o.method) o

/-! ## ChittyDLVR orchestrator (src/src/core/receipt.js, lines 178-463) -/

/-- The `ChittyDLVR` constructor configuration used by `send`. -/
structure DlvrConfig where
  apiKey : Option String
  chittyId : Option String
deriving Repr, DecidableEq

structure StatusEntry where
  status : String
  timestamp : String
  actor : String
deriving Repr, DecidableEq

structure DeliveryProof where
  pillar : String
  mintId : String
  deliveryId : String
  method : String
  score : JsScore
deriving Repr, DecidableEq

/-- The delivery record returned by `ChittyDLVR.send` (lines 221-264). -/
structure Delivery where
  deliveryId : String
  mintId : String
  «from» : String
  «to» : String
  method : String
  address : Option String
  dispatch : DispatchMeta
  status : String
  statusHistory : List StatusEntry
  proof : DeliveryProof
  createdAt : String
  sentAt : String
  deliveredAt : Option String
  receiptedAt : Option String
  trackingUrl : String
  receiptUrl : String
deriving Repr, DecidableEq

/-- Options of `ChittyDLVR.send`; `method` defaults to `email`.  The
method-specific `options` object is dropped by the channel handlers and
is omitted.  A missing/empty `mintId` models the falsy guard. -/
structure SendOptions where
  mintId : String
  «to» : String
  method : String := "email"
  address : Option String
deriving Repr, DecidableEq

/-- `ChittyDLVR.send` (src/src/core/receipt.js lines 210-267).  Throws
(`Except.error`) when `!mintId` — with `mintId : String` the falsy case
is the empty string.  The generated delivery identifier, the clock reads
(all collapsed to one `timestamp`), and `Date.now()` are externalized. -/
def ChittyDLVR.send (cfg : DlvrConfig) (opts : SendOptions)
    (deliveryId timestamp : String) (nowMs : Nat) : Except String Delivery :=
  if opts.mintId = "" then
    .error "mintId is required and must be a string"
  else
    .ok
      { deliveryId := deliveryId
        mintId := opts.mintId
        «from» := cfg.chittyId.getD "anonymous"
        «to» := opts.«to»
        method := opts.method
        address := opts.address
        dispatch := DeliveryChannel.dispatch
          { deliveryId := deliveryId
            method := opts.method
            address := opts.address
            mintId := opts.mintId
            timestamp := timestamp
            nowMs := nowMs }
        status := "SENT"
        statusHistory :=
          [⟨"PENDING", timestamp, "system"⟩, ⟨"SENT", timestamp, "system"⟩]
        proof :=
          { pillar := "delivery"
            mintId := opts.mintId
            deliveryId := deliveryId
            method := opts.method
            score := calculateDeliveryScore opts.method "SENT" }
        createdAt := timestamp
        sentAt := timestamp
        deliveredAt := none
        receiptedAt := none
        trackingUrl := "https://chitty.cc/track/" ++ deliveryId
        receiptUrl := "https://chitty.cc/receipt/" ++ deliveryId }

/-- A recipient entry of `bulkSend`'s `recipients` array. -/
structure Recipient where
  «to» : String
  method : String := "email"
  address : Option String
deriving Repr, DecidableEq

/-- The catch-branch entry `bulkSend` records for a recipient whose
`send` threw (lines 388-394). -/
structure BulkFailure where
  deliveryId : Option String
  «to» : String
  method : String
  status : String
  error : String
deriving Repr, DecidableEq

/-- One element of `bulkSend`'s `results` array: a successful `send`
result or a recorded failure. -/
inductive BulkResult where
  | delivery (d : Delivery)
  | failure (f : BulkFailure)
deriving Repr, DecidableEq

/-- The `status` field `bulkSend`'s filters read off a result entry. -/
def BulkResult.status : BulkResult → String
  | .delivery d => d.status
  | .failure f => f.status

/-- The `to` field of a result entry. -/
def BulkResult.to : BulkResult → String
  | .delivery d => d.«to»
  | .failure f => f.«to»

/-- The `method` field of a result entry. -/
def BulkResult.method : BulkResult → String
  | .delivery d => d.method
  | .failure f => f.method

/-- The batch object returned by `bulkSend` (lines 398-406). -/
structure BulkBatch where
  bulkId : String
  mintId : String
  totalRecipients : Nat
  sent : Nat
  failed : Nat
  deliveries : List BulkResult
  createdAt : String
deriving Repr, DecidableEq

structure BulkOptions where
  mintId : String
  recipients : List Recipient
deriving Repr, DecidableEq

/-- One iteration of `bulkSend`'s loop (lines 380-396): `try` the send,
`catch` into a `FAILED` entry carrying the error message. -/
def bulkStep (cfg : DlvrConfig) (mintId : String) (r : Recipient)
    (deliveryId timestamp : String) (nowMs : Nat) : BulkResult :=
  match ChittyDLVR.send cfg
      { mintId := mintId, «to» := r.«to», method := r.method, address := r.address }
      deliveryId timestamp nowMs with
  | .ok d => .delivery d
  | .error e =>
    .failure
      { deliveryId := none
        «to» := r.«to»
        method := r.method
        status := "FAILED"
        error := e }

/-- The `for (const recipient of recipients)` loop, with the generated
delivery identifiers externalized as `genId` applied to the loop index. -/
def bulkResults (cfg : DlvrConfig) (mintId : String) (genId : Nat → String)
    (timestamp : String) (nowMs : Nat) : Nat → List Recipient → List BulkResult
  | _, [] => []
  | i, r :: rest =>
    bulkStep cfg mintId r (genId i) timestamp nowMs ::
      bulkResults cfg mintId genId timestamp nowMs (i + 1) rest

/-- `ChittyDLVR.bulkSend` (src/src/core/receipt.js lines 368-407).  The
generated bulk identifier, per-recipient delivery identifiers, and clock
reads are externalized. -/
def ChittyDLVR.bulkSend (cfg : DlvrConfig) (opts : BulkOptions)
    (bulkId : String) (genId : Nat → String) (timestamp : String)
    (nowMs : Nat) : Except String BulkBatch :=
  if opts.mintId = "" then
    .error "mintId is required and must be a string"
  else if opts.recipients.isEmpty then
    .error "recipients must be a non-empty array"
  else
    let results := bulkResults cfg opts.mintId genId timestamp nowMs 0 opts.recipients
    .ok
      { bulkId := bulkId
        mintId := opts.mintId
        totalRecipients := opts.recipients.length
        sent := (results.filter (fun r => r.status == "SENT")).length
        failed := (results.filter (fun r => r.status == "FAILED")).length
        deliveries := results
        createdAt := timestamp }

/-! ## ServiceEngine (src/src/core/service.js) -/

def VALID_SERVICE_TYPES : List String :=
  ["personal", "substituted", "constructive", "publication"]

/-- The per-type procedural requirement objects (service.js lines
164-196), as one structure over the union of the keys; a key absent from
a given object is `false` (respectively `none` for `durationWeeks`),
matching JS `undefined` falsiness. -/
structure Requirements where
  inPerson : Bool := false
  identifyRespondent : Bool := false
  handDeliver : Bool := false
  affidavitRequired : Bool := false
  witnessOptional : Bool := false
  atAddress : Bool := false
  competentPerson : Bool := false
  mailCopy : Bool := false
  courtOrderMayBeRequired : Bool := false
  postedOnDoor : Bool := false
  courtOrderRequired : Bool := false
  newspaperNotice : Bool := false
  durationWeeks : Option Nat := none
  proofOfPublication : Bool := false
deriving Repr, DecidableEq

/-- `ServiceEngine.getRequirements` (service.js lines 164-196);
`reqs[serviceType] || reqs.personal` falls back to the personal set. -/
def getRequirements (serviceType : String) : Requirements :=
  if serviceType = "personal" then
    { inPerson := true, identifyRespondent := true, handDeliver := true
      affidavitRequired := true, witnessOptional := true }
  else if serviceType = "substituted" then
    { atAddress := true, competentPerson := true, mailCopy := true
      affidavitRequired := true, courtOrderMayBeRequired := true }
  else if serviceType = "constructive" then
    { postedOnDoor := true, mailCopy := true, affidavitRequired := true
      courtOrderRequired := true }
  else if serviceType = "publication" then
    { newspaperNotice := true, courtOrderRequired := true
      durationWeeks := some 4, affidavitRequired := true
      proofOfPublication := true }
  else
    { inPerson := true, identifyRespondent := true, handDeliver := true
      affidavitRequired := true, witnessOptional := true }

/-- `ServiceEngine.getMaxAttempts` (service.js lines 198-206). -/
def getMaxAttempts (serviceType : String) : Nat :=
  let attempts : Option Nat :=
    if serviceType = "personal" then some 3
    else if serviceType = "substituted" then some 2
    else if serviceType = "constructive" then some 1
    else if serviceType = "publication" then some 1
    else none
  attempts.getD 3

/-- The `details` object consumed by the affidavit scoring functions and
`recordAffidavit` (service.js lines 109-160, 210-231). -/
structure AffidavitDetails where
  jurisdiction : Option String := none
  servedTo : Option String := none
  relationship : Option String := none
  location : Option String := none
  servedAt : Option String := none
  notarized : Bool := false
  witnessPresent : Bool := false
  geoVerified : Bool := false
deriving Repr, DecidableEq

/-- `ServiceEngine.scoreAffidavit` (service.js lines 210-216):
admissibility axis. -/
def scoreAffidavit (serviceType : String) (details : AffidavitDetails) : Nat :=
  let base : Option Nat :=
    if serviceType = "personal" then some 95
    else if serviceType = "substituted" then some 80
    else if serviceType = "constructive" then some 70
    else if serviceType = "publication" then some 65
    else none
  let score := base.getD 70
  let score := if details.notarized then min 100 (score + 5) else score
  let score := if details.witnessPresent then min 100 (score + 3) else score
  score

/-- `ServiceEngine.scoreTechnical` (service.js lines 218-223). -/
def scoreTechnical (serviceType : String) (details : AffidavitDetails) : Nat :=
  let base : Option Nat :=
    if serviceType = "personal" then some 90
    else if serviceType = "substituted" then some 75
    else if serviceType = "constructive" then some 65
    else if serviceType = "publication" then some 60
    else none
  let score := base.getD 65
  let score := if details.geoVerified then min 100 (score + 5) else score
  score

/-- `ServiceEngine.scoreArguable` (service.js lines 225-231):
persuasive axis. -/
def scoreArguable (serviceType : String) (details : AffidavitDetails) : Nat :=
  let base : Option Nat :=
    if serviceType = "personal" then some 95
    else if serviceType = "substituted" then some 85
    else if serviceType = "constructive" then some 75
    else if serviceType = "publication" then some 70
    else none
  let score := base.getD 70
  let score := if details.notarized then min 100 (score + 5) else score
  let score := if details.witnessPresent then min 100 (score + 5) else score
  score

structure ServiceCaseProof where
  pillar : String
  method : String
  serviceType : String
  score : Nat
  affidavitFiled : Bool
deriving Repr, DecidableEq

/-- An attempt record as returned by `recordAttempt` (service.js lines
87-104). -/
structure AttemptRecord where
  serviceId : String
  attemptNumber : Nat
  successful : Bool
  servedTo : Option String
  relationship : Option String
  location : Option String
  geoVerified : Bool
  processServer : Option String
  notes : Option String
  timestamp : String
  witnessed : Bool
  witness : String
deriving Repr, DecidableEq

/-- The service case returned by `ServiceEngine.initiate` (service.js
lines 40-81). -/
structure ServiceCase where
  serviceId : String
  mintId : String
  respondent : String
  serviceType : String
  address : Option String
  jurisdiction : Option String
  processServer : Option String
  serverAssigned : Bool
  status : String
  statusHistory : List StatusEntry
  attempts : List AttemptRecord
  maxAttempts : Nat
  requirements : Requirements
  proof : ServiceCaseProof
  createdAt : String
  servedAt : Option String
  affidavitFiledAt : Option String
  trackingUrl : String
deriving Repr, DecidableEq

/-- Options of `ServiceEngine.initiate`; `serviceType` defaults to
`personal` at the destructuring. -/
structure InitiateOptions where
  mintId : String
  respondent : String
  serviceType : String := "personal"
  address : Option String
  jurisdiction : Option String
  timestamp : String
deriving Repr, DecidableEq

/-- `ServiceEngine.initiate` (service.js lines 24-82): throws
(`Except.error`) with the `Invalid service type` message unless
`serviceType` is one of the four enumerated values; the generated
service identifier is externalized. -/
def ServiceEngine.initiate (opts : InitiateOptions) (serviceId : String) :
    Except String ServiceCase :=
  if ¬ VALID_SERVICE_TYPES.contains opts.serviceType then
    .error ("Invalid service type: " ++ opts.serviceType ++ ". Valid types: " ++
      String.intercalate ", " VALID_SERVICE_TYPES)
  else
    .ok
      { serviceId := serviceId
        mintId := opts.mintId
        respondent := opts.respondent
        serviceType := opts.serviceType
        address := opts.address
        jurisdiction := opts.jurisdiction
        processServer := none
        serverAssigned := false
        status := "INITIATED"
        statusHistory := [⟨"INITIATED", opts.timestamp, "system"⟩]
        attempts := []
        maxAttempts := getMaxAttempts opts.serviceType
        requirements := getRequirements opts.serviceType
        proof :=
          { pillar := "delivery"
            method := "legalService"
            serviceType := opts.serviceType
            score := 0
            affidavitFiled := false }
        createdAt := opts.timestamp
        servedAt := none
        affidavitFiledAt := none
        trackingUrl := "https://chitty.cc/service/" ++ serviceId }

structure AffidavitProof where
  pillar : String
  method : String
  score : Nat
  technical : Nat
  arguable : Nat
deriving Repr, DecidableEq

/-- The affidavit returned by `recordAffidavit` (service.js lines
120-159). -/
structure Affidavit where
  affidavitId : String
  serviceId : String
  processServer : String
  serverLicensed : Bool
  serverJurisdiction : Option String
  serviceType : String
  servedTo : Option String
  relationship : Option String
  location : Option String
  sworn : Bool
  notarized : Bool
  witnessPresent : Bool
  proof : AffidavitProof
  status : String
  servedAt : String
  filedAt : String
  createdAt : String
  verifyUrl : String
deriving Repr, DecidableEq

/-- Options of `ServiceEngine.recordAffidavit`; `serviceType` defaults to
`personal`, `details` to the empty object. -/
structure RecordAffidavitOptions where
  serviceId : String
  processServer : String
  serviceType : String := "personal"
  details : AffidavitDetails := {}
  timestamp : String
deriving Repr, DecidableEq

/-- `ServiceEngine.recordAffidavit` (service.js lines 109-160); the
generated affidavit identifier is externalized.  `details.servedAt ||
timestamp` follows JS truthiness with `none` for an absent key. -/
def ServiceEngine.recordAffidavit (opts : RecordAffidavitOptions)
    (affidavitId : String) : Affidavit :=
  { affidavitId := affidavitId
    serviceId := opts.serviceId
    processServer := opts.processServer
    serverLicensed := true
    serverJurisdiction := opts.details.jurisdiction
    serviceType := opts.serviceType
    servedTo := opts.details.servedTo
    relationship := opts.details.relationship
    location := opts.details.location
    sworn := true
    notarized := opts.details.notarized
    witnessPresent := opts.details.witnessPresent
    proof :=
      { pillar := "delivery"
        method := "legalService"
        score := scoreAffidavit opts.serviceType opts.details
        technical := scoreTechnical opts.serviceType opts.details
        arguable := scoreArguable opts.serviceType opts.details }
    status := "FILED"
    servedAt := (opts.details.servedAt).getD opts.timestamp
    filedAt := opts.timestamp
    createdAt := opts.timestamp
    verifyUrl := "https://chitty.cc/affidavit/" ++ affidavitId }

/-! ## Claim theorems -/

/-- Claim C1 as frozen is false of the program at an inherited
`Object.prototype` member name: for the off-table method `toString` the
claim's tables demand `round(50 * 0.3) = 15`, but the JS object lookup
finds the inherited `toString` function, `|| 50` never fires, the
product is non-numeric, and `calculateDeliveryScore("toString", "SENT")`
returns `NaN`. -/
theorem C1_prototype_key_counterexample :
    calculateDeliveryScore "toString" "SENT" = JsScore.nan ∧
    calculateDeliveryScore "toString" "SENT" ≠
      JsScore.score (jsRoundHundredths
        (specMethodBase "toString" * specStatusMultiplier "SENT")) :=
  ⟨rfl, by decide⟩

/-- Claim C1 as amended: for every method and status that is not an
inherited `Object.prototype` member name — in particular for every pair
of the defined tables — `calculateDeliveryScore` equals
`round(methodBase[method] * statusMultiplier[status])` with unknown
method defaulting to 50 and unknown status multiplier to 0 (multipliers
scaled by 100 here); in particular `(email, SENT)` gives 21,
`(legalService, RECEIPTED)` gives 95, `(email, PENDING)` gives 0, and
`(email, REFUSED)` gives 35. -/
theorem C1_delivery_score_tables_amended :
    (∀ method status : String,
      method ∉ objectPrototypeKeys → status ∉ objectPrototypeKeys →
      calculateDeliveryScore method status =
        .score (jsRoundHundredths (specMethodBase method * specStatusMultiplier status))) ∧
    calculateDeliveryScore "email" "SENT" = .score 21 ∧
    calculateDeliveryScore "legalService" "RECEIPTED" = .score 95 ∧
    calculateDeliveryScore "email" "PENDING" = .score 0 ∧
    calculateDeliveryScore "email" "REFUSED" = .score 35 := by
  refine ⟨fun m s hm hs => ?_, rfl, rfl, rfl, rfl⟩
  have hm2 : ¬ objectPrototypeKeys.contains m = true := by simpa using hm
  have hs2 : ¬ objectPrototypeKeys.contains s = true := by simpa using hs
  unfold calculateDeliveryScore
  rw [jsOr_methodScores_eq_specMethodBase m hm2,
    jsOr_statusMultipliers_eq_specStatusMultiplier s hs2]

/-- Witness for the amended C1 at concrete inputs: the ordinary unknown
method `pigeon` takes the 50 default (score 15 at SENT), and
`(email, SENT)` gives 21. -/
theorem C1_delivery_score_witness :
    calculateDeliveryScore "pigeon" "SENT" = JsScore.score 15 ∧
    calculateDeliveryScore "email" "SENT" = JsScore.score 21 :=
  ⟨(C1_delivery_score_tables_amended.1 "pigeon" "SENT"
      (by decide) (by decide)).trans (by decide),
   C1_delivery_score_tables_amended.2.1⟩

/-- The signature block `create` embeds into the receipt, read off the
definition. -/
theorem create_signature_eq (st : EngineState) (opts : CreateOptions)
    (receiptId : String) (fresh : Nat) (drand : Option DrandAnchor) :
    (ReceiptEngine.create st opts receiptId fresh drand).1.signature =
      some
        { signatureId := "SIG-" ++ receiptId
          algorithm := "ECDSA-P256-SHA256"
          value := btoa (subtleSign (getServiceKeyPair st fresh).1.privateKey
            (textEncode (serializePayload (mkReceiptPayload opts receiptId drand))))
          publicKey := btoa (exportKey (getServiceKeyPair st fresh).1.publicKey)
          signedPayload := serializePayload (mkReceiptPayload opts receiptId drand)
          valid := true
          timestamp := opts.timestamp } := rfl

/-- Round-trip core: verifying, via the store lookup, a receipt just
produced by `create` succeeds, because the stored `signedPayload` text is
the very text whose encoding was signed. -/
theorem verify_after_create (st : EngineState) (opts : CreateOptions)
    (receiptId : String) (fresh : Nat) (drand : Option DrandAnchor) (now : String) :
    (ReceiptEngine.verify (ReceiptEngine.create st opts receiptId fresh drand).2
      receiptId none now).verified = true := by
  simp [ReceiptEngine.verify, ReceiptEngine.create, ReceiptEngine.getById,
    atob_btoa, exportKey, importKey, subtleSign, subtleVerify,
    KeyPair.privateKey, KeyPair.publicKey, List.lookup]

/-- Claim C2: every receipt produced by `ReceiptEngine.create` verifies:
calling `verify` with the produced receipt identifier and no external
receipt data looks the receipt up in the store and returns
`verified = true`; moreover the receipt's stored `signedPayload` is
byte-identical to the text that was signed (its embedded signature is the
ideal signature of exactly those bytes). -/
theorem C2_create_verify_roundtrip (st : EngineState) (opts : CreateOptions)
    (receiptId : String) (fresh : Nat) (drand : Option DrandAnchor) (now : String) :
    (ReceiptEngine.verify (ReceiptEngine.create st opts receiptId fresh drand).2
      (ReceiptEngine.create st opts receiptId fresh drand).1.receiptId none now).verified
        = true ∧
    ((ReceiptEngine.create st opts receiptId fresh drand).1.signature.map
        SignatureBlock.signedPayload) =
      some (serializePayload (mkReceiptPayload opts receiptId drand)) ∧
    ((ReceiptEngine.create st opts receiptId fresh drand).1.signature.map
        SignatureBlock.value) =
      some (btoa (subtleSign (getServiceKeyPair st fresh).1.privateKey
        (textEncode (serializePayload (mkReceiptPayload opts receiptId drand))))) := by
  refine ⟨?_, rfl, rfl⟩
  exact verify_after_create st opts receiptId fresh drand now

/-- Claim C3: the result of `verify` on supplied receipt data depends
only on the record's own embedded bytes — two engine states with
different (or absent) in-memory keypairs, different configured keys and
different stores produce identical verification results. -/
theorem C3_verify_independent_of_engine_state
    (jwk1 jwk2 : Option Nat) (kp1 kp2 : Option KeyPair)
    (store1 store2 : List (String × Receipt))
    (receiptId : String) (rd : Receipt) (now : String) :
    ReceiptEngine.verify ⟨jwk1, kp1, store1⟩ receiptId (some rd) now =
      ReceiptEngine.verify ⟨jwk2, kp2, store2⟩ receiptId (some rd) now := rfl

/-- Claim C6: the temporal-anchor fetch is total (never throws to its
caller) and returns `none` on a network failure, a non-200 response, or a
payload missing `round`, `randomness` or `signature`; and `create`
without an anchor still returns a complete receipt whose `drand` block is
`null` and which subsequently verifies as `true`. -/
theorem C6_anchor_failure_degrades_gracefully :
    (∀ message, fetchDrandRound (.netError message) = none) ∧
    (∀ status statusText, fetchDrandRound (.httpError status statusText) = none) ∧
    (∀ data : DrandJson,
      data.round = none ∨ data.randomness = none ∨ data.signature = none →
      fetchDrandRound (.ok data) = none) ∧
    (∀ (st : EngineState) (opts : CreateOptions) (receiptId : String)
        (fresh : Nat) (now : String),
      (ReceiptEngine.create st opts receiptId fresh none).1.drand = none ∧
      (ReceiptEngine.verify (ReceiptEngine.create st opts receiptId fresh none).2
        receiptId none now).verified = true) := by
  refine ⟨fun _ => rfl, fun _ _ => rfl, ?_, ?_⟩
  · rintro ⟨r, x, sg⟩ (h | h | h) <;>
      simp_all [fetchDrandRound, truthyNat, truthyStr]
  · intro st opts receiptId fresh now
    exact ⟨rfl, verify_after_create st opts receiptId fresh none now⟩

/-- Witness for C6: a concrete degraded payload (missing `round`) and a
concrete network failure both yield `none`, and a concrete anchorless
`create`/`verify` round-trip succeeds. -/
theorem C6_anchor_failure_witness :
    fetchDrandRound (.ok ⟨none, some "abc", some "def"⟩) = none ∧
    fetchDrandRound (.netError "connection refused") = none ∧
    (ReceiptEngine.verify
      (ReceiptEngine.create ⟨none, none, []⟩
        ⟨"DD-TEST-123", "recipient-chitty-id", "digital", "2026-01-01T00:00:00Z"⟩
        "DR-1" 7 none).2 "DR-1" none "2026-01-01T00:00:01Z").verified = true :=
  ⟨C6_anchor_failure_degrades_gracefully.2.2.1 ⟨none, some "abc", some "def"⟩ (Or.inl rfl),
   C6_anchor_failure_degrades_gracefully.1 "connection refused",
   (C6_anchor_failure_degrades_gracefully.2.2.2 ⟨none, none, []⟩
     ⟨"DD-TEST-123", "recipient-chitty-id", "digital", "2026-01-01T00:00:00Z"⟩
     "DR-1" 7 "2026-01-01T00:00:01Z").2⟩

/-- Claim C4: tampering with a produced receipt is detected without an
exception: replacing the stored `signedPayload` text, or the signature
`value` text, with anything different yields `verified = false` (the
payload-tamper result is a plain signature-invalid answer, not flagged as
a system error), and a `value` that is not even valid base64 — the
processing-exception case — yields a result flagged with
`verificationError = true`, distinct from a plain mismatch. -/
theorem C4_tamper_detection (st : EngineState) (opts : CreateOptions)
    (receiptId : String) (fresh : Nat) (drand : Option DrandAnchor) (now : String)
    (sb : SignatureBlock)
    (hsig : (ReceiptEngine.create st opts receiptId fresh drand).1.signature = some sb) :
    (∀ sp' : String, sp' ≠ sb.signedPayload →
      (ReceiptEngine.verify st receiptId (some
        { (ReceiptEngine.create st opts receiptId fresh drand).1 with
          signature := some { sb with signedPayload := sp' } }) now).verified = false ∧
      (ReceiptEngine.verify st receiptId (some
        { (ReceiptEngine.create st opts receiptId fresh drand).1 with
          signature := some { sb with signedPayload := sp' } }) now).verificationError
            = false) ∧
    (∀ v' : List Nat, v' ≠ sb.value →
      (ReceiptEngine.verify st receiptId (some
        { (ReceiptEngine.create st opts receiptId fresh drand).1 with
          signature := some { sb with value := v' } }) now).verified = false) ∧
    (∀ v' : List Nat, atob v' = none →
      (ReceiptEngine.verify st receiptId (some
        { (ReceiptEngine.create st opts receiptId fresh drand).1 with
          signature := some { sb with value := v' } }) now).verificationError = true) := by
  rw [create_signature_eq st opts receiptId fresh drand] at hsig
  injection hsig with hsb
  subst hsb
  refine ⟨?_, ?_, ?_⟩
  · intro sp' hne
    constructor
    · simp [ReceiptEngine.verify, atob_btoa, importKey, exportKey,
        subtleVerify, subtleSign, KeyPair.privateKey, KeyPair.publicKey]
      intro h
      exact hne (textEncode_injective h.symm)
    · simp [ReceiptEngine.verify, atob_btoa, importKey, exportKey,
        subtleVerify, subtleSign, KeyPair.privateKey, KeyPair.publicKey]
  · intro v' hne
    cases h : atob v' with
    | none =>
      simp [ReceiptEngine.verify, h, atob_btoa, importKey, exportKey]
    | some bs =>
      have hv : v' = btoa bs := atob_eq_some v' bs h
      have hbs : bs ≠ subtleSign (getServiceKeyPair st fresh).1.privateKey
          (textEncode (serializePayload (mkReceiptPayload opts receiptId drand))) := by
        intro hb
        exact hne (by rw [hv, hb])
      simp [ReceiptEngine.verify, h, atob_btoa, importKey, exportKey,
        subtleVerify, subtleSign, KeyPair.privateKey, KeyPair.publicKey]
      simpa [subtleSign, KeyPair.privateKey, KeyPair.publicKey] using hbs
  · intro v' hfail
    simp [ReceiptEngine.verify, hfail, atob_btoa, importKey, exportKey]

/-- The signature block of one concrete receipt, used to witness the
tamper-detection theorem. -/
def sampleBlock : SignatureBlock :=
  { signatureId := "SIG-" ++ "DR-1"
    algorithm := "ECDSA-P256-SHA256"
    value := btoa (subtleSign (getServiceKeyPair ⟨none, none, []⟩ 7).1.privateKey
      (textEncode (serializePayload (mkReceiptPayload
        ⟨"DD-TEST-123", "recipient-chitty-id", "digital", "T0"⟩ "DR-1" none))))
    publicKey := btoa (exportKey (getServiceKeyPair ⟨none, none, []⟩ 7).1.publicKey)
    signedPayload := serializePayload (mkReceiptPayload
      ⟨"DD-TEST-123", "recipient-chitty-id", "digital", "T0"⟩ "DR-1" none)
    valid := true
    timestamp := "T0" }

/-- Witness for C4 at a concrete receipt: an emptied payload text fails
verification without being flagged a system error, an emptied signature
value fails verification, and a non-base64 signature value trips the
system-error flag. -/
theorem C4_tamper_witness :
    (ReceiptEngine.verify ⟨none, none, []⟩ "DR-1" (some
      { (ReceiptEngine.create ⟨none, none, []⟩
          ⟨"DD-TEST-123", "recipient-chitty-id", "digital", "T0"⟩ "DR-1" 7 none).1 with
        signature := some { sampleBlock with signedPayload := "" } }) "T1").verified
          = false ∧
    (ReceiptEngine.verify ⟨none, none, []⟩ "DR-1" (some
      { (ReceiptEngine.create ⟨none, none, []⟩
          ⟨"DD-TEST-123", "recipient-chitty-id", "digital", "T0"⟩ "DR-1" 7 none).1 with
        signature := some { sampleBlock with signedPayload := "" } }) "T1").verificationError
          = false ∧
    (ReceiptEngine.verify ⟨none, none, []⟩ "DR-1" (some
      { (ReceiptEngine.create ⟨none, none, []⟩
          ⟨"DD-TEST-123", "recipient-chitty-id", "digital", "T0"⟩ "DR-1" 7 none).1 with
        signature := some { sampleBlock with value := [] } }) "T1").verified = false ∧
    (ReceiptEngine.verify ⟨none, none, []⟩ "DR-1" (some
      { (ReceiptEngine.create ⟨none, none, []⟩
          ⟨"DD-TEST-123", "recipient-chitty-id", "digital", "T0"⟩ "DR-1" 7 none).1 with
        signature := some { sampleBlock with value := [0] } }) "T1").verificationError
          = true :=
  ⟨((C4_tamper_detection ⟨none, none, []⟩
      ⟨"DD-TEST-123", "recipient-chitty-id", "digital", "T0"⟩ "DR-1" 7 none "T1"
      sampleBlock rfl).1 "" (by decide)).1,
   ((C4_tamper_detection ⟨none, none, []⟩
      ⟨"DD-TEST-123", "recipient-chitty-id", "digital", "T0"⟩ "DR-1" 7 none "T1"
      sampleBlock rfl).1 "" (by decide)).2,
   (C4_tamper_detection ⟨none, none, []⟩
      ⟨"DD-TEST-123", "recipient-chitty-id", "digital", "T0"⟩ "DR-1" 7 none "T1"
      sampleBlock rfl).2.1 [] (by decide),
   (C4_tamper_detection ⟨none, none, []⟩
      ⟨"DD-TEST-123", "recipient-chitty-id", "digital", "T0"⟩ "DR-1" 7 none "T1"
      sampleBlock rfl).2.2 [0] (by decide)⟩

/-- Claim C5 concerns dispatching an unsupported delivery method.  The
code evidence: `getHandler` resolves the unknown method name `pigeon` to
the email handler (the `handlers[method] || handlers.email` fallback), so
`dispatch` with `pigeon` succeeds and returns email-channel metadata with
`dispatched: true` instead of failing with `UnsupportedMethodError` — the
behaviour the specification (and the repository's own test expecting
`Unsupported delivery method`) requires. -/
theorem C5_unsupported_method_silently_dispatches_email :
    getHandler "pigeon" = ChannelHandler.email ∧
    (DeliveryChannel.dispatch
      { deliveryId := "DD-1", method := "pigeon", address := some "nest",
        mintId := "DM-TEST", timestamp := "2026-01-01T00:00:00Z",
        nowMs := 0 }).channel = "email" ∧
    (DeliveryChannel.dispatch
      { deliveryId := "DD-1", method := "pigeon", address := some "nest",
        mintId := "DM-TEST", timestamp := "2026-01-01T00:00:00Z",
        nowMs := 0 }).dispatched = true :=
  ⟨rfl, rfl, rfl⟩

/-- Claim C9 concerns `bulkSend` over three recipients of which one has
an invalid method.  The code evidence, at the repository's own test
input: because `send` dispatches `invalid_method` through the email
fallback instead of throwing, the batch reports `sent = 3, failed = 0`
with every entry `SENT` — not the `sent = 2, failed = 1` with a `FAILED`
entry that the specification and the test require.  (The batch call
itself indeed does not throw.) -/
theorem C9_bulkSend_invalid_method_counted_sent :
    ∃ b : BulkBatch,
      ChittyDLVR.bulkSend ⟨some "test-key-minimum-16ch", some "test-chitty-id"⟩
        ⟨"DM-BULK-TEST",
         [⟨"alice", "email", some "alice@example.com"⟩,
          ⟨"bob", "invalid_method", some "x"⟩,
          ⟨"charlie", "portal", none⟩]⟩
        "DB-1" (fun i => "DD-" ++ toString i) "2026-01-01T00:00:00Z" 0 =
          .ok b ∧
      b.totalRecipients = 3 ∧ b.sent = 3 ∧ b.failed = 0 ∧
      b.deliveries.all (fun r => r.status == "SENT") = true := by
  refine ⟨_, rfl, rfl, ?_, ?_, ?_⟩ <;> rfl

/-- Claim C7: `initiate` fails with the `Invalid service type` error for
every service type outside the four enumerated values, and a
`publication` case carries `requirements.courtOrderRequired = true` and
`maxAttempts = 1`.  (`serve` delegates to `initiate` unchanged.) -/
theorem C7_initiate_service_type_contract :
    (∀ (opts : InitiateOptions) (serviceId : String),
      opts.serviceType ∉ VALID_SERVICE_TYPES →
      ServiceEngine.initiate opts serviceId =
        .error ("Invalid service type: " ++ opts.serviceType ++
          ". Valid types: personal, substituted, constructive, publication")) ∧
    (∀ (opts : InitiateOptions) (serviceId : String),
      opts.serviceType = "publication" →
      ∃ c : ServiceCase, ServiceEngine.initiate opts serviceId = .ok c ∧
        c.requirements.courtOrderRequired = true ∧ c.maxAttempts = 1) := by
  constructor
  · intro opts serviceId h
    have hc : ¬ (VALID_SERVICE_TYPES.contains opts.serviceType = true) := by
      simpa using h
    simp only [ServiceEngine.initiate, if_pos hc]
    rw [String.append_assoc]
    rfl
  · intro opts serviceId h
    obtain ⟨m, r, stp, a, j, ts⟩ := opts
    simp only at h
    subst h
    exact ⟨_, rfl, rfl, rfl⟩

/-- Witness for C7 at the specification's own examples: a `telekinesis`
service type is rejected with the invalid-type error, and a
`publication` case requires a court order and allows one attempt. -/
theorem C7_initiate_witness :
    ServiceEngine.initiate
        ⟨"DM-TEST", "Jane Doe", "telekinesis", none, none, "T0"⟩ "DS-1" =
      .error ("Invalid service type: telekinesis. Valid types: " ++
        "personal, substituted, constructive, publication") ∧
    ∃ c : ServiceCase,
      ServiceEngine.initiate
          ⟨"DM-TEST", "Jane Doe", "publication", none, none, "T0"⟩ "DS-2" =
        .ok c ∧
      c.requirements.courtOrderRequired = true ∧ c.maxAttempts = 1 :=
  ⟨C7_initiate_service_type_contract.1
      ⟨"DM-TEST", "Jane Doe", "telekinesis", none, none, "T0"⟩ "DS-1" (by decide),
   C7_initiate_service_type_contract.2
      ⟨"DM-TEST", "Jane Doe", "publication", none, none, "T0"⟩ "DS-2" rfl⟩

/-- Admissibility-axis base table as the claim words it: personal 95,
substituted 80, constructive 70, publication 65 (the claim constrains no
other service type). -/
def specAdmissibilityBase (serviceType : String) : Nat :=
  if serviceType = "personal" then 95
  else if serviceType = "substituted" then 80
  else if serviceType = "constructive" then 70
  else if serviceType = "publication" then 65
  else 0

/-- Technical-axis base table as the claim words it: 90/75/65/60. -/
def specTechnicalBase (serviceType : String) : Nat :=
  if serviceType = "personal" then 90
  else if serviceType = "substituted" then 75
  else if serviceType = "constructive" then 65
  else if serviceType = "publication" then 60
  else 0

/-- Persuasive-axis base table as the claim words it: 95/85/75/70. -/
def specPersuasiveBase (serviceType : String) : Nat :=
  if serviceType = "personal" then 95
  else if serviceType = "substituted" then 85
  else if serviceType = "constructive" then 75
  else if serviceType = "publication" then 70
  else 0

/-- Claim C8: for every enumerated service type and all details, the
three scores of the affidavit produced by `recordAffidavit` equal the
per-axis base plus additive bonuses capped at 100: +5 on the
admissibility and persuasive axes if notarized, +3 on admissibility and
+5 on persuasive if a witness was present, +5 on technical if
geolocation-verified. -/
theorem C8_affidavit_scores (opts : RecordAffidavitOptions) (affidavitId : String)
    (h : opts.serviceType ∈ VALID_SERVICE_TYPES) :
    (ServiceEngine.recordAffidavit opts affidavitId).proof.score =
      min 100 (specAdmissibilityBase opts.serviceType +
        (if opts.details.notarized then 5 else 0) +
        (if opts.details.witnessPresent then 3 else 0)) ∧
    (ServiceEngine.recordAffidavit opts affidavitId).proof.technical =
      min 100 (specTechnicalBase opts.serviceType +
        (if opts.details.geoVerified then 5 else 0)) ∧
    (ServiceEngine.recordAffidavit opts affidavitId).proof.arguable =
      min 100 (specPersuasiveBase opts.serviceType +
        (if opts.details.notarized then 5 else 0) +
        (if opts.details.witnessPresent then 5 else 0)) := by
  obtain ⟨sid, ps, stp, d, ts⟩ := opts
  obtain ⟨j, sv, rel, loc, sa, n, w, g⟩ := d
  simp only [VALID_SERVICE_TYPES, List.mem_cons, List.not_mem_nil, or_false] at h
  rcases h with h | h | h | h <;> subst h <;>
    cases n <;> cases w <;> cases g <;>
    exact ⟨rfl, rfl, rfl⟩

/-- Witness for C8: a notarized, witnessed, geolocation-verified
personal-service affidavit scores 100/95/100. -/
theorem C8_affidavit_witness :
    (ServiceEngine.recordAffidavit
      ⟨"DS-TEST-123", "SERVER-001", "personal",
       { jurisdiction := some "Cook County, IL", servedTo := some "John Doe",
         notarized := true, witnessPresent := true, geoVerified := true },
       "T0"⟩ "DA-1").proof.score = 100 ∧
    (ServiceEngine.recordAffidavit
      ⟨"DS-TEST-123", "SERVER-001", "personal",
       { jurisdiction := some "Cook County, IL", servedTo := some "John Doe",
         notarized := true, witnessPresent := true, geoVerified := true },
       "T0"⟩ "DA-1").proof.technical = 95 ∧
    (ServiceEngine.recordAffidavit
      ⟨"DS-TEST-123", "SERVER-001", "personal",
       { jurisdiction := some "Cook County, IL", servedTo := some "John Doe",
         notarized := true, witnessPresent := true, geoVerified := true },
       "T0"⟩ "DA-1").proof.arguable = 100 := by
  have h := C8_affidavit_scores
    ⟨"DS-TEST-123", "SERVER-001", "personal",
     { jurisdiction := some "Cook County, IL", servedTo := some "John Doe",
       notarized := true, witnessPresent := true, geoVerified := true },
     "T0"⟩ "DA-1" (by decide)
  exact ⟨h.1.trans (by decide), h.2.1.trans (by decide), h.2.2.trans (by decide)⟩

theorem bulkResults_length (cfg : DlvrConfig) (m : String) (genId : Nat → String)
    (ts : String) (now : Nat) :
    ∀ (rs : List Recipient) (i : Nat),
      (bulkResults cfg m genId ts now i rs).length = rs.length := by
  intro rs
  induction rs with
  | nil => intro i; rfl
  | cons r rest ih => intro i; simp [bulkResults, ih]

theorem bulkResults_get (cfg : DlvrConfig) (m : String) (genId : Nat → String)
    (ts : String) (now : Nat) :
    ∀ (rs : List Recipient) (i k : Nat) (hk : k < rs.length)
      (hk2 : k < (bulkResults cfg m genId ts now i rs).length),
      (bulkResults cfg m genId ts now i rs).get ⟨k, hk2⟩ =
        bulkStep cfg m (rs.get ⟨k, hk⟩) (genId (i + k)) ts now := by
  intro rs
  induction rs with
  | nil => intro i k hk hk2; exact absurd hk (by simp)
  | cons r rest ih =>
    intro i k hk hk2
    cases k with
    | zero => rfl
    | succ k2 =>
      have h1 : k2 < rest.length := by simpa using hk
      have h2 : k2 < (bulkResults cfg m genId ts now (i + 1) rest).length := by
        rw [bulkResults_length]; exact h1
      have harith : i + 1 + k2 = i + (k2 + 1) := by omega
      have key := ih (i + 1) k2 h1 h2
      rw [harith] at key
      exact key

theorem bulkStep_status (cfg : DlvrConfig) (m : String) (r : Recipient)
    (did ts : String) (now : Nat) :
    (bulkStep cfg m r did ts now).status = "SENT" ∨
      (bulkStep cfg m r did ts now).status = "FAILED" := by
  unfold bulkStep
  rcases hs : ChittyDLVR.send cfg
      { mintId := m, «to» := r.«to», method := r.method, address := r.address }
      did ts now with e | d
  · right; rfl
  · left
    unfold ChittyDLVR.send at hs
    split_ifs at hs
    injection hs with hd
    subst hd
    rfl

theorem bulkStep_to (cfg : DlvrConfig) (m : String) (r : Recipient)
    (did ts : String) (now : Nat) :
    BulkResult.to (bulkStep cfg m r did ts now) = r.«to» := by
  unfold bulkStep
  rcases hs : ChittyDLVR.send cfg
      { mintId := m, «to» := r.«to», method := r.method, address := r.address }
      did ts now with e | d
  · rfl
  · unfold ChittyDLVR.send at hs
    split_ifs at hs
    injection hs with hd
    subst hd
    rfl

theorem bulkStep_method (cfg : DlvrConfig) (m : String) (r : Recipient)
    (did ts : String) (now : Nat) :
    BulkResult.method (bulkStep cfg m r did ts now) = r.method := by
  unfold bulkStep
  rcases hs : ChittyDLVR.send cfg
      { mintId := m, «to» := r.«to», method := r.method, address := r.address }
      did ts now with e | d
  · rfl
  · unfold ChittyDLVR.send at hs
    split_ifs at hs
    injection hs with hd
    subst hd
    rfl

theorem filter_status_length (l : List BulkResult)
    (h : ∀ r ∈ l, r.status = "SENT" ∨ r.status = "FAILED") :
    (l.filter (fun r => r.status == "SENT")).length +
      (l.filter (fun r => r.status == "FAILED")).length = l.length := by
  induction l with
  | nil => rfl
  | cons a tl ih =>
    have htl : ∀ r ∈ tl, r.status = "SENT" ∨ r.status = "FAILED" :=
      fun r hr => h r (by simp [hr])
    have ihtl := ih htl
    rcases h a (by simp) with ha | ha <;>
      simp [List.filter_cons, ha] <;> omega

theorem bulkResults_status_mem (cfg : DlvrConfig) (m : String)
    (genId : Nat → String) (ts : String) (now : Nat) :
    ∀ (rs : List Recipient) (i : Nat),
      ∀ r ∈ bulkResults cfg m genId ts now i rs,
        r.status = "SENT" ∨ r.status = "FAILED" := by
  intro rs
  induction rs with
  | nil => intro i r hr; exact absurd hr (by simp [bulkResults])
  | cons a rest ih =>
    intro i r hr
    rw [bulkResults] at hr
    rcases List.mem_cons.mp hr with hr | hr
    · subst hr; exact bulkStep_status cfg m a (genId i) ts now
    · exact ih (i + 1) r hr

/-- Claim C10: every batch accepted by `bulkSend` satisfies
`totalRecipients = |recipients| = |deliveries|`,
`sent + failed = totalRecipients`, every deliveries entry has status
`SENT` or `FAILED`, and the k-th entry corresponds to the k-th recipient
in input order (same `to` and `method`). -/
theorem C10_bulk_batch_invariants (cfg : DlvrConfig) (opts : BulkOptions)
    (bulkId : String) (genId : Nat → String) (timestamp : String) (nowMs : Nat)
    (b : BulkBatch)
    (h : ChittyDLVR.bulkSend cfg opts bulkId genId timestamp nowMs = .ok b) :
    b.totalRecipients = opts.recipients.length ∧
    b.deliveries.length = opts.recipients.length ∧
    b.sent + b.failed = b.totalRecipients ∧
    (∀ r ∈ b.deliveries, r.status = "SENT" ∨ r.status = "FAILED") ∧
    (∀ (k : Nat) (hk : k < opts.recipients.length)
        (hk2 : k < b.deliveries.length),
      BulkResult.to (b.deliveries.get ⟨k, hk2⟩) =
        (opts.recipients.get ⟨k, hk⟩).«to» ∧
      BulkResult.method (b.deliveries.get ⟨k, hk2⟩) =
        (opts.recipients.get ⟨k, hk⟩).method) := by
  unfold ChittyDLVR.bulkSend at h
  split_ifs at h
  injection h with hb
  subst hb
  refine ⟨rfl,
    bulkResults_length cfg opts.mintId genId timestamp nowMs opts.recipients 0,
    ?_, ?_, ?_⟩
  · have hmem :=
      bulkResults_status_mem cfg opts.mintId genId timestamp nowMs opts.recipients 0
    have hcount := filter_status_length _ hmem
    simpa [bulkResults_length] using hcount
  · exact bulkResults_status_mem cfg opts.mintId genId timestamp nowMs opts.recipients 0
  · intro k hk hk2
    rw [bulkResults_get cfg opts.mintId genId timestamp nowMs opts.recipients 0 k hk hk2]
    exact ⟨bulkStep_to cfg opts.mintId (opts.recipients.get ⟨k, hk⟩)
        (genId (0 + k)) timestamp nowMs,
      bulkStep_method cfg opts.mintId (opts.recipients.get ⟨k, hk⟩)
        (genId (0 + k)) timestamp nowMs⟩

/-- Witness for C10: a concrete two-recipient batch satisfies the
invariants. -/
theorem C10_bulk_batch_witness :
    ∃ b : BulkBatch,
      ChittyDLVR.bulkSend ⟨none, some "test-chitty-id"⟩
        ⟨"DM-BULK-1",
         [⟨"alice", "email", some "alice@example.com"⟩,
          ⟨"bob", "sms", some "+1234567890"⟩]⟩
        "DB-9" (fun i => "DD-" ++ toString i) "T0" 0 = .ok b ∧
      b.sent + b.failed = b.totalRecipients ∧
      b.deliveries.length = 2 := by
  refine ⟨_, rfl, ?_, ?_⟩
  · exact (C10_bulk_batch_invariants ⟨none, some "test-chitty-id"⟩
      ⟨"DM-BULK-1",
       [⟨"alice", "email", some "alice@example.com"⟩,
        ⟨"bob", "sms", some "+1234567890"⟩]⟩
      "DB-9" (fun i => "DD-" ++ toString i) "T0" 0 _ rfl).2.2.1
  · exact ((C10_bulk_batch_invariants ⟨none, some "test-chitty-id"⟩
      ⟨"DM-BULK-1",
       [⟨"alice", "email", some "alice@example.com"⟩,
        ⟨"bob", "sms", some "+1234567890"⟩]⟩
      "DB-9" (fun i => "DD-" ++ toString i) "T0" 0 _ rfl).2.1).trans rfl
